import Mathlib

/-!
Verification of the outbound-request Dispatcher of the mcp-openai server
(`src/client.ts`, `src/index.ts`).

The embedding models:
* JSON-ish request-body values (`JsVal`) and the per-capability body
  builders (`chatCompletionBody`, `createImageBody`, ...), mirroring the
  `Record<string, unknown>` bodies built in `client.ts`;
* the credential check of `OpenAIClient`'s constructor;
* JavaScript `parseInt(s, 10)` and the `parseInt(...) || 1` retry-after
  computation;
* the `rateLimit` / `handleRequest` retry-and-pacing core as a state
  machine over an integer millisecond clock (idealized `setTimeout`:
  sleeping d ms advances the clock by exactly d);
* Node's `Buffer.toString("base64")` encoding and its decoding, for the
  speech round-trip property.
-/

/-- JSON-like values appearing in outgoing request bodies
(`Record<string, unknown>` in `client.ts`). Numbers are modelled as
rationals; no arithmetic is ever performed on them. -/
inductive JsVal where
  | str : String → JsVal
  | num : Rat → JsVal
  | arr : List JsVal → JsVal
  | obj : List (String × JsVal) → JsVal

/-- `RATE_LIMIT_DELAY = 100` ms (10 req/s) from `client.ts`. -/
def RATE_LIMIT_DELAY : Nat := 100

/-- One optional body field: present exactly when the caller supplied a
defined value (the `if (x !== undefined) body.k = x` pattern). -/
def optField (k : String) : Option JsVal → List (String × JsVal)
  | some v => [(k, v)]
  | none => []

/-- Body built by `chatCompletion` in `client.ts`: required `model` and
`messages`, then each optional field added only when defined. -/
def chatCompletionBody (model : String) (messages : List JsVal)
    (temperature maxTokens topP : Option Rat) (tools : Option (List JsVal))
    (toolChoice : Option JsVal) : List (String × JsVal) :=
  [("model", .str model), ("messages", .arr messages)]
    ++ optField "temperature" (temperature.map .num)
    ++ optField "max_tokens" (maxTokens.map .num)
    ++ optField "top_p" (topP.map .num)
    ++ optField "tools" (tools.map .arr)
    ++ optField "tool_choice" toolChoice

/-- Body built by `createEmbedding`: required `model` and `input`,
optional `dimensions`. -/
def createEmbeddingBody (model : String) (input : JsVal)
    (dimensions : Option Rat) : List (String × JsVal) :=
  [("model", .str model), ("input", input)]
    ++ optField "dimensions" (dimensions.map .num)

/-- JavaScript `a || b` on an optional string: falls through on
`undefined` and on the empty string (both falsy). -/
def jsOrString (a : Option String) (b : String) : String :=
  match a with
  | some s => if s = "" then b else s
  | none => b

/-- Body built by `createImage`: `model` is always present, via
`model: model || "dall-e-3"`; `size`, `quality`, `n` are added only when
defined. -/
def createImageBody (prompt : String) (model size quality : Option String)
    (n : Option Rat) : List (String × JsVal) :=
  [("prompt", .str prompt), ("model", .str (jsOrString model "dall-e-3"))]
    ++ optField "size" (size.map .str)
    ++ optField "quality" (quality.map .str)
    ++ optField "n" (n.map .num)

/-- Body built by `createSpeech`: required `model`, `input`, `voice`;
optional `response_format` and `speed`. -/
def createSpeechBody (model input voice : String)
    (responseFormat : Option String) (speed : Option Rat) :
    List (String × JsVal) :=
  [("model", .str model), ("input", .str input), ("voice", .str voice)]
    ++ optField "response_format" (responseFormat.map .str)
    ++ optField "speed" (speed.map .num)

/-- Body built by `createTranscription`: a plain JSON body whose `file`
field is the caller-supplied file URL string (no multipart upload);
optional `language` and `response_format`. -/
def createTranscriptionBody (model fileUrl : String)
    (language responseFormat : Option String) : List (String × JsVal) :=
  [("model", .str model), ("file", .str fileUrl)]
    ++ optField "language" (language.map .str)
    ++ optField "response_format" (responseFormat.map .str)

/-- Body built by `moderateContent`: required `input`, optional `model`. -/
def moderateContentBody (input : String) (model : Option String) :
    List (String × JsVal) :=
  [("input", .str input)] ++ optField "model" (model.map .str)

/-- How the transport decodes the response body: ordinary JSON, or a raw
binary buffer (`responseType: "arraybuffer"`). -/
inductive ResponseMode where
  | json
  | arraybuffer
  deriving DecidableEq, Repr

/-- An outbound request: endpoint path, HTTP method, request content
type (the axios instance is created with
`"Content-Type": "application/json"` for every request), body fields,
and response decoding mode. -/
structure OperationRequest where
  path : String
  method : String
  contentType : String
  body : List (String × JsVal)
  responseMode : ResponseMode

/-- The request issued by `createTranscription`: POST of the JSON body to
`/audio/transcriptions`. -/
def createTranscriptionRequest (model fileUrl : String)
    (language responseFormat : Option String) : OperationRequest :=
  { path := "/audio/transcriptions"
    method := "POST"
    contentType := "application/json"
    body := createTranscriptionBody model fileUrl language responseFormat
    responseMode := .json }

/-- The request issued by `createSpeech`: POST to `/audio/speech` asking
for a raw `arraybuffer` response. -/
def createSpeechRequest (model input voice : String)
    (responseFormat : Option String) (speed : Option Rat) :
    OperationRequest :=
  { path := "/audio/speech"
    method := "POST"
    contentType := "application/json"
    body := createSpeechBody model input voice responseFormat speed
    responseMode := .arraybuffer }

/-- The constructor of `OpenAIClient`:
`const key = apiKey || process.env.OPENAI_API_KEY; if (!key) throw ...`.
Returns the credential actually used, or the configuration error. -/
def openAIClientInit (apiKey envKey : Option String) :
    Except String String :=
  let key : Option String :=
    match apiKey with
    | some s => if s = "" then envKey else some s
    | none => envKey
  match key with
  | some s =>
      if s = "" then .error "OPENAI_API_KEY environment variable is required"
      else .ok s
  | none => .error "OPENAI_API_KEY environment variable is required"

/-- JavaScript `parseInt(s, 10)`: skip leading whitespace, optional sign,
then the longest prefix of decimal digits; `none` stands for `NaN`. -/
def jsParseInt (s : String) : Option Int :=
  let cs := s.toList.dropWhile (fun c => c.isWhitespace)
  let signAndRest : Int × List Char :=
    match cs with
    | '-' :: rest => (-1, rest)
    | '+' :: rest => (1, rest)
    | _ => (1, cs)
  let digits := signAndRest.2.takeWhile (fun c => c.isDigit)
  if digits.isEmpty then none
  else
    some (signAndRest.1 *
      (digits.foldl (fun acc c => acc * 10 + (c.toNat - 48)) 0 : Nat))

/-- `parseInt(headers["retry-after"], 10) || 1` from `handleRequest`:
an absent header, an unparsable header (`NaN`), and a parsed value of `0`
(falsy) all yield the default `1`. -/
def retryAfterValue (header : Option String) : Int :=
  match header with
  | none => 1
  | some s =>
      match jsParseInt s with
      | none => 1
      | some n => if n = 0 then 1 else n

/-- Errors a wrapped request can raise, as `handleRequest` distinguishes
them: an HTTP response error (axios error with a `response`, carrying the
status, the optional `retry-after` header and the body), a network-level
axios error with no response, or a non-axios error. -/
inductive ReqError where
  | http : Nat → Option String → String → ReqError
  | network : String → ReqError
  | other : String → ReqError
  deriving DecidableEq, Repr

/-- The retry condition of `handleRequest`:
`axios.isAxiosError(error) && error.response?.status === 429`. -/
def isRetryable429 : ReqError → Bool
  | .http 429 _ _ => true
  | _ => false

/-- The `retry-after` response header of an HTTP error
(`error.response.headers["retry-after"]`). -/
def retryAfterHeader : ReqError → Option String
  | .http _ h _ => h
  | .network _ => none
  | .other _ => none

/-- `rateLimit` from `client.ts`, over an idealized millisecond clock:
given the current time and the last-request timestamp, returns the time
at which the request is issued (which also becomes the new
`lastRequestTime`). If less than `RATE_LIMIT_DELAY` has elapsed, the call
sleeps for the remainder. -/
def rateLimit (now last : Nat) : Nat :=
  if now - last < RATE_LIMIT_DELAY then
    now + (RATE_LIMIT_DELAY - (now - last))
  else
    now

/-- The observable outcome of one `handleRequest` call chain: the final
result, the issue timestamps of every attempt in order, the backoff
sleeps (ms) taken between attempts, the time when the chain finished, and
the final `lastRequestTime`. -/
structure RunResult (α : Type) where
  result : Except ReqError α
  attempts : List Nat
  sleeps : List Nat
  endTime : Nat
  finalLast : Nat
  deriving Repr

/-- `handleRequest` from `client.ts`. `transport k` is the outcome of the
k-th attempt of the wrapped request closure; `dur k` is how long that
attempt takes. The call first runs `rateLimit`, then issues the attempt;
on a 429 with remaining budget it parses `retry-after` (default 1 s),
sleeps `retryAfter * 1000` ms (a negative value clamps to 0 as
`setTimeout` does) and recurses with `retries - 1`; any other error, or
an exhausted budget, propagates the error unchanged. -/
def handleRequest {α : Type} (transport : Nat → Except ReqError α)
    (dur : Nat → Nat) (k now last retries : Nat) : RunResult α :=
  let issueTime := rateLimit now last
  let afterReq := issueTime + dur k
  match transport k with
  | .ok v => ⟨.ok v, [issueTime], [], afterReq, issueTime⟩
  | .error e =>
      match retries with
      | r + 1 =>
          if isRetryable429 e then
            let sleepMs : Nat :=
              ((retryAfterValue (retryAfterHeader e)) * 1000).toNat
            let rest :=
              handleRequest transport dur (k + 1) (afterReq + sleepMs)
                issueTime r
            ⟨rest.result, issueTime :: rest.attempts,
              sleepMs :: rest.sleeps, rest.endTime, rest.finalLast⟩
          else ⟨.error e, [issueTime], [], afterReq, issueTime⟩
      | 0 => ⟨.error e, [issueTime], [], afterReq, issueTime⟩

/-- One logical call made through the Dispatcher: how long after the
previous call finished it is initiated, the mock transport for its
attempts, their durations, and its retry budget. -/
structure CallSpec (α : Type) where
  idle : Nat
  transport : Nat → Except ReqError α
  dur : Nat → Nat
  retries : Nat

/-- Run a sequence of NON-OVERLAPPING calls through one Dispatcher
instance, threading the clock and the shared `lastRequestTime`: each call
is initiated only after the previous call's chain has finished, so every
`rateLimit` read observes the previous write. Returns the issue
timestamps of every attempt (retries included) in order. This serialized
schedule deliberately excludes concurrent overlap; `racingIssueTimes`
models the overlapping schedule. -/
def runCalls {α : Type} : List (CallSpec α) → Nat → Nat → List Nat
  | [], _, _ => []
  | c :: rest, now, last =>
      (handleRequest c.transport c.dur 0 (now + c.idle) last c.retries).attempts
        ++ runCalls rest
          (handleRequest c.transport c.dur 0 (now + c.idle) last
            c.retries).endTime
          (handleRequest c.transport c.dur 0 (now + c.idle) last
            c.retries).finalLast

/-- Two calls racing through `rateLimit` on one Dispatcher. In
`rateLimit` (client.ts:101-110) the read of `this.lastRequestTime` and
the write of the new value are separated by the `await` on the spacing
`setTimeout`: the write happens only after the await resolves. So when a
second call enters `rateLimit` while the first is still suspended in its
spacing await, BOTH calls observe the same stale timestamp `last`, each
computes its own wake time from it, and each issues at that wake time.
Given the shared timestamp `last` both calls read and the two entry
times `tA` and `tB`, this returns the two issue timestamps. -/
def racingIssueTimes (last tA tB : Nat) : Nat × Nat :=
  (rateLimit tA last, rateLimit tB last)

/-- The standard base64 alphabet used by Node's
`Buffer.toString("base64")` (RFC 4648, with `=` padding). -/
def b64Alphabet : List Char :=
  "ABCDEFGHIJKLMNOPQRSTUVWXYZabcdefghijklmnopqrstuvwxyz0123456789+/".toList

/-- The base64 character for a sextet. -/
def b64c (n : Nat) : Char := b64Alphabet.getD n 'A'

/-- Position of a character in the base64 alphabet, scanning from `i`. -/
def b64idxAux (c : Char) : List Char → Nat → Option Nat
  | [], _ => none
  | x :: xs, i => if x = c then some i else b64idxAux c xs (i + 1)

/-- The sextet a base64 character denotes, `none` for non-alphabet
characters (in particular for the padding character). -/
def b64idx (c : Char) : Option Nat := b64idxAux c b64Alphabet 0

/-- `Buffer.from(bytes).toString("base64")`: encode 3 bytes into 4
characters, padding a final 1- or 2-byte group with `=`. -/
def base64EncodeList : List Nat → List Char
  | [] => []
  | [a] => [b64c (a / 4), b64c (a % 4 * 16), '=', '=']
  | [a, b] => [b64c (a / 4), b64c (a % 4 * 16 + b / 16), b64c (b % 16 * 4), '=']
  | a :: b :: c :: rest =>
      b64c (a / 4) :: b64c (a % 4 * 16 + b / 16) ::
        b64c (b % 16 * 4 + c / 64) :: b64c (c % 64) :: base64EncodeList rest

/-- Decode a padded base64 character list back to bytes (inverse of
`base64EncodeList` on well-formed input; garbage decodes to `[]`). -/
def base64DecodeList : List Char → List Nat
  | c1 :: c2 :: c3 :: c4 :: rest =>
      match b64idx c1, b64idx c2 with
      | some n1, some n2 =>
          let x1 := n1 * 4 + n2 / 16
          if c3 = '=' then [x1]
          else
            match b64idx c3 with
            | some n3 =>
                let x2 := n2 % 16 * 16 + n3 / 4
                if c4 = '=' then [x1, x2]
                else
                  match b64idx c4 with
                  | some n4 => x1 :: x2 :: (n3 % 4 * 64 + n4) :: base64DecodeList rest
                  | none => []
            | none => []
      | _, _ => []
  | _ => []

/-- Base64 encoding as a string. -/
def base64Encode (bytes : List Nat) : String :=
  String.mk (base64EncodeList bytes)

/-- Base64 decoding of a string. -/
def base64Decode (s : String) : List Nat :=
  base64DecodeList s.toList

/-- The caller-facing result of `createSpeech`: a single-field structure
holding base64-encoded text. -/
structure SpeechResponse where
  audio_base64 : String
  deriving DecidableEq, Repr

/-- What `createSpeech` returns for the raw bytes the transport produced:
`Buffer.from(response.data).toString("base64")` wrapped in the
single-field structure. -/
def createSpeechResult (responseBytes : List Nat) : SpeechResponse :=
  { audio_base64 := base64Encode responseBytes }

/-! ### Unfolding lemmas for `handleRequest` -/

/-- A successful attempt returns the result after one rate-limited issue. -/
lemma handleRequest_ok {α : Type} (transport : Nat → Except ReqError α)
    (dur : Nat → Nat) (k now last retries : Nat) (v : α)
    (h : transport k = .ok v) :
    handleRequest transport dur k now last retries =
      ⟨.ok v, [rateLimit now last], [], rateLimit now last + dur k,
        rateLimit now last⟩ := by
  rw [handleRequest, h]

/-- With an exhausted budget, any error propagates after one attempt. -/
lemma handleRequest_zero {α : Type} (transport : Nat → Except ReqError α)
    (dur : Nat → Nat) (k now last : Nat) (e : ReqError)
    (h : transport k = .error e) :
    handleRequest transport dur k now last 0 =
      ⟨.error e, [rateLimit now last], [], rateLimit now last + dur k,
        rateLimit now last⟩ := by
  rw [handleRequest, h]

/-- A non-retryable error propagates after one attempt, any budget. -/
lemma handleRequest_succ_noRetry {α : Type}
    (transport : Nat → Except ReqError α) (dur : Nat → Nat)
    (k now last r : Nat) (e : ReqError)
    (h : transport k = .error e) (h429 : isRetryable429 e = false) :
    handleRequest transport dur k now last (r + 1) =
      ⟨.error e, [rateLimit now last], [], rateLimit now last + dur k,
        rateLimit now last⟩ := by
  rw [handleRequest, h]
  simp [h429]

/-- A 429 with remaining budget sleeps the parsed backoff and recurses. -/
lemma handleRequest_succ_retry {α : Type}
    (transport : Nat → Except ReqError α) (dur : Nat → Nat)
    (k now last r : Nat) (e : ReqError)
    (h : transport k = .error e) (h429 : isRetryable429 e = true) :
    handleRequest transport dur k now last (r + 1) =
      ⟨(handleRequest transport dur (k + 1)
          (rateLimit now last + dur k +
            ((retryAfterValue (retryAfterHeader e)) * 1000).toNat)
          (rateLimit now last) r).result,
        rateLimit now last ::
          (handleRequest transport dur (k + 1)
            (rateLimit now last + dur k +
              ((retryAfterValue (retryAfterHeader e)) * 1000).toNat)
            (rateLimit now last) r).attempts,
        ((retryAfterValue (retryAfterHeader e)) * 1000).toNat ::
          (handleRequest transport dur (k + 1)
            (rateLimit now last + dur k +
              ((retryAfterValue (retryAfterHeader e)) * 1000).toNat)
            (rateLimit now last) r).sleeps,
        (handleRequest transport dur (k + 1)
          (rateLimit now last + dur k +
            ((retryAfterValue (retryAfterHeader e)) * 1000).toNat)
          (rateLimit now last) r).endTime,
        (handleRequest transport dur (k + 1)
          (rateLimit now last + dur k +
            ((retryAfterValue (retryAfterHeader e)) * 1000).toNat)
          (rateLimit now last) r).finalLast⟩ := by
  rw [handleRequest, h]
  simp [h429]

/-! ### Mock transports used in concrete runs -/

/-- A transport that fails every attempt with HTTP 429 and no header. -/
def always429 : Nat → Except ReqError Unit :=
  fun _ => .error (.http 429 none "rate limited")

/-- A transport that fails every attempt with HTTP 500. -/
def always500 : Nat → Except ReqError Unit :=
  fun _ => .error (.http 500 none "internal server error")

/-- A transport that fails every attempt with 429 and `retry-after: 0`. -/
def always429HeaderZero : Nat → Except ReqError Unit :=
  fun _ => .error (.http 429 (some "0") "rate limited")

/-- A transport that fails every attempt with 429 and `retry-after: 2`. -/
def always429HeaderTwo : Nat → Except ReqError Unit :=
  fun _ => .error (.http 429 (some "2") "rate limited")

/-! ### Retry counting -/

/-- Against a transport that always fails 429, `handleRequest` performs
`retries + 1` attempts and ends with the error of the final attempt. -/
lemma handleRequest_always429 {α : Type}
    (transport : Nat → Except ReqError α) (errs : Nat → ReqError)
    (dur : Nat → Nat)
    (ht : ∀ j, transport j = .error (errs j))
    (h429 : ∀ j, isRetryable429 (errs j) = true) :
    ∀ (retries k now last : Nat),
      (handleRequest transport dur k now last retries).attempts.length
          = retries + 1 ∧
      (handleRequest transport dur k now last retries).result
          = .error (errs (k + retries)) := by
  intro retries
  induction retries with
  | zero =>
      intro k now last
      rw [handleRequest_zero transport dur k now last (errs k) (ht k)]
      simp
  | succ r ih =>
      intro k now last
      rw [handleRequest_succ_retry transport dur k now last r (errs k)
        (ht k) (h429 k)]
      have hih := ih (k + 1) (rateLimit now last + dur k +
        ((retryAfterValue (retryAfterHeader (errs k))) * 1000).toNat)
        (rateLimit now last)
      simp only [List.length_cons, hih.1, hih.2]
      constructor
      · trivial
      · congr 2
        omega

lemma rateLimit_lower (now last : Nat) (h : last ≤ now) :
    last + RATE_LIMIT_DELAY ≤ rateLimit now last := by
  unfold rateLimit RATE_LIMIT_DELAY
  split <;> omega

lemma handleRequest_attempts_spec {α : Type}
    (transport : Nat → Except ReqError α) (dur : Nat → Nat) :
    ∀ (retries k now last : Nat),
      List.Chain' (fun a b => a + RATE_LIMIT_DELAY ≤ b)
        (handleRequest transport dur k now last retries).attempts ∧
      (handleRequest transport dur k now last retries).attempts.head? =
        some (rateLimit now last) ∧
      (handleRequest transport dur k now last retries).attempts.getLast? =
        some (handleRequest transport dur k now last retries).finalLast ∧
      (handleRequest transport dur k now last retries).finalLast ≤
        (handleRequest transport dur k now last retries).endTime := by
  intro retries
  induction retries with
  | zero =>
      intro k now last
      cases h : transport k with
      | ok v =>
          rw [handleRequest_ok transport dur k now last 0 v h]
          simp
      | error e =>
          rw [handleRequest_zero transport dur k now last e h]
          simp
  | succ r ih =>
      intro k now last
      cases h : transport k with
      | ok v =>
          rw [handleRequest_ok transport dur k now last (r + 1) v h]
          simp
      | error e =>
          cases h429 : isRetryable429 e with
          | false =>
              rw [handleRequest_succ_noRetry transport dur k now last r e h h429]
              simp
          | true =>
              rw [handleRequest_succ_retry transport dur k now last r e h h429]
              obtain ⟨hc, hh, hl, he⟩ := ih (k + 1)
                (rateLimit now last + dur k +
                  ((retryAfterValue (retryAfterHeader e)) * 1000).toNat)
                (rateLimit now last)
              refine ⟨?_, ?_, ?_, ?_⟩
              · rw [List.chain'_cons']
                refine ⟨?_, hc⟩
                intro y hy
                rw [hh] at hy
                simp only [Option.mem_def, Option.some.injEq] at hy
                subst hy
                exact rateLimit_lower _ _ (by omega)
              · simp
              · show (rateLimit now last :: (handleRequest transport dur (k + 1)
                    (rateLimit now last + dur k +
                      ((retryAfterValue (retryAfterHeader e)) * 1000).toNat)
                    (rateLimit now last) r).attempts).getLast? =
                  some (handleRequest transport dur (k + 1)
                    (rateLimit now last + dur k +
                      ((retryAfterValue (retryAfterHeader e)) * 1000).toNat)
                    (rateLimit now last) r).finalLast
                rcases hrest : (handleRequest transport dur (k + 1)
                    (rateLimit now last + dur k +
                      ((retryAfterValue (retryAfterHeader e)) * 1000).toNat)
                    (rateLimit now last) r).attempts with _ | ⟨x, xs⟩
                · rw [hrest] at hh
                  simp at hh
                · rw [List.getLast?_cons_cons, ← hrest]
                  exact hl
              · exact he

lemma runCalls_spacing {α : Type} :
    ∀ (calls : List (CallSpec α)) (now last : Nat), last ≤ now →
      List.Chain' (fun a b => a + RATE_LIMIT_DELAY ≤ b)
        (runCalls calls now last) ∧
      (∀ x, (runCalls calls now last).head? = some x →
        last + RATE_LIMIT_DELAY ≤ x) := by
  intro calls
  induction calls with
  | nil =>
      intro now last h
      simp [runCalls]
  | cons c rest ih =>
      intro now last h
      obtain ⟨hc, hh, hl, he⟩ :=
        handleRequest_attempts_spec c.transport c.dur c.retries 0
          (now + c.idle) last
      obtain ⟨hc2, hh2⟩ := ih
        (handleRequest c.transport c.dur 0 (now + c.idle) last c.retries).endTime
        (handleRequest c.transport c.dur 0 (now + c.idle) last c.retries).finalLast
        he
      rw [runCalls]
      constructor
      · apply List.Chain'.append hc hc2
        intro x hx y hy
        rw [Option.mem_def, hl, Option.some.injEq] at hx
        subst hx
        exact hh2 y (Option.mem_def.mp hy)
      · intro x hx
        rcases hatt : (handleRequest c.transport c.dur 0 (now + c.idle) last
            c.retries).attempts with _ | ⟨a, as⟩
        · rw [hatt] at hh
          simp at hh
        · rw [hatt] at hx hh
          rw [List.cons_append, List.head?_cons, Option.some.injEq] at hx
          rw [List.head?_cons, Option.some.injEq] at hh
          subst hx
          rw [hh]
          exact rateLimit_lower _ _ (by omega)

/-! ### Claim theorems -/

/-- C1: against a transport that always fails with HTTP 429, a call
through the Dispatcher's core primitive with retry budget R performs
exactly R + 1 attempts and propagates the final 429 error unchanged;
with R = 0 it performs exactly 1 attempt (the R = 0 instance of the
statement). -/
theorem retry_bound_always429 {α : Type}
    (transport : Nat → Except ReqError α) (errs : Nat → ReqError)
    (dur : Nat → Nat) (now last R : Nat)
    (ht : ∀ j, transport j = .error (errs j))
    (h429 : ∀ j, isRetryable429 (errs j) = true) :
    (handleRequest transport dur 0 now last R).attempts.length = R + 1 ∧
    (handleRequest transport dur 0 now last R).result = .error (errs R) := by
  have h := handleRequest_always429 transport errs dur ht h429 R 0 now last
  simpa using h

/-- Witness for C1: the always-429 mock with budget 3 makes 4 attempts
and returns the 429 error; with budget 0 it makes 1 attempt. -/
theorem retry_bound_always429_witness :
    ((handleRequest always429 (fun _ => 0) 0 0 0 3).attempts.length = 3 + 1 ∧
      (handleRequest always429 (fun _ => 0) 0 0 0 3).result
        = .error (.http 429 none "rate limited")) ∧
    ((handleRequest always429 (fun _ => 0) 0 0 0 0).attempts.length = 0 + 1 ∧
      (handleRequest always429 (fun _ => 0) 0 0 0 0).result
        = .error (.http 429 none "rate limited")) :=
  ⟨retry_bound_always429 always429 (fun _ => .http 429 none "rate limited")
      (fun _ => 0) 0 0 3 (fun _ => rfl) (fun _ => rfl),
    retry_bound_always429 always429 (fun _ => .http 429 none "rate limited")
      (fun _ => 0) 0 0 0 (fun _ => rfl) (fun _ => rfl)⟩

/-- The spacing guarantee the pacing logic provides when callers are
serialized: for a sequence of non-overlapping calls issued through one
Dispatcher instance (each attempt of each call, retries after a 429
included, passes through `rateLimit` first, and each call begins after
the previous one finished), consecutive outbound issue timestamps are at
least `RATE_LIMIT_DELAY` = 100 ms apart, provided the clock has not gone
backwards past the initial `lastRequestTime`. This holds only of the
serialized schedule: `spacing_race_zero_gap` shows the same logic
violates the spacing bound under concurrent overlap. -/
theorem spacing_invariant {α : Type} (calls : List (CallSpec α))
    (now last : Nat) (h : last ≤ now) :
    List.Chain' (fun a b => a + RATE_LIMIT_DELAY ≤ b)
      (runCalls calls now last) :=
  (runCalls_spacing calls now last h).1

/-- Concrete instance of `spacing_invariant`: two serialized calls, the
second retrying once after a 429, give issue timestamps that are pairwise
at least 100 ms apart. -/
theorem spacing_invariant_witness :
    (0 : Nat) ≤ 0 ∧
    List.Chain' (fun a b => a + RATE_LIMIT_DELAY ≤ b)
      (runCalls [⟨0, always500, fun _ => 0, 3⟩,
        ⟨0, always429, fun _ => 0, 1⟩] 0 0) :=
  ⟨Nat.le_refl 0,
    spacing_invariant [⟨0, always500, fun _ => 0, 3⟩,
      ⟨0, always429, fun _ => 0, 1⟩] 0 0 (Nat.le_refl 0)⟩

/-- C2: the claimed spacing invariant is violated by the code under
concurrent overlap, evaluated at the failing input. A Dispatcher starts
with `lastRequestTime = 0`; call A enters `rateLimit` at t = 0 and call B
at t = 10, before A's spacing await has resolved — so both read the
stale timestamp 0, because `rateLimit` writes `lastRequestTime` only
after its await. Both compute a wake time of 100 and issue at t = 100:
the gap between the two issue timestamps is 0 ms, not the ≥ 100 ms the
claim states. (The spec separately mandates serializing this
read-modify-write so that two concurrent calls never both observe a
stale timestamp; the code does not implement that serialization.) -/
theorem spacing_race_zero_gap :
    (racingIssueTimes 0 0 10).1 = 100 ∧
    (racingIssueTimes 0 0 10).2 = 100 ∧
    ¬ ((racingIssueTimes 0 0 10).1 + RATE_LIMIT_DELAY ≤
        (racingIssueTimes 0 0 10).2) :=
  ⟨rfl, rfl, by decide⟩

/-- C7: an error that is not an HTTP 429 (an HTTP 500 response, a network
failure, or any non-axios error) propagates unchanged after exactly one
attempt, with no backoff sleep, regardless of the retry budget. -/
theorem non429_passthrough {α : Type} (transport : Nat → Except ReqError α)
    (dur : Nat → Nat) (now last retries : Nat) (e : ReqError)
    (h0 : transport 0 = .error e) (hnr : isRetryable429 e = false) :
    handleRequest transport dur 0 now last retries =
      ⟨.error e, [rateLimit now last], [], rateLimit now last + dur 0,
        rateLimit now last⟩ := by
  rcases retries with _ | r
  · rw [handleRequest_zero transport dur 0 now last e h0]
  · rw [handleRequest_succ_noRetry transport dur 0 now last r e h0 hnr]

/-- Witness for C7: an always-500 mock with budget 3 fails after one
attempt with the 500 error and takes no backoff sleep. -/
theorem non429_passthrough_witness :
    handleRequest always500 (fun _ => 0) 0 0 0 3 =
      ⟨.error (.http 500 none "internal server error"), [rateLimit 0 0], [],
        rateLimit 0 0 + 0, rateLimit 0 0⟩ :=
  non429_passthrough always500 (fun _ => 0) 0 0 3
    (.http 500 none "internal server error") rfl rfl

/-- C3 (counterexample to the claim as stated): a `retry-after` header
`"0"` parses successfully to the integer 0, yet the Dispatcher does not
wait 0 seconds before retrying — it waits the default 1000 ms, because
`parseInt(...) || 1` treats the parsed 0 as falsy. -/
theorem backoff_zero_header_cex :
    jsParseInt "0" = some 0 ∧
    (handleRequest always429HeaderZero (fun _ => 0) 0 0 0 1).sleeps
        = [1000] ∧
    (handleRequest always429HeaderZero (fun _ => 0) 0 0 0 1).sleeps
        ≠ [0] :=
  ⟨by decide, rfl, by decide⟩

/-- C3 (amended): on a 429 failure with remaining retry budget, the
Dispatcher reads the `retry-after` header and waits
`retryAfterValue header * 1000` ms before retrying, where the value is
the parsed integer when it parses to a nonzero integer, and the default
1 second when the header is absent, unparsable, or parses to 0 (a
negative parsed value clamps to a zero wait when scheduled). -/
theorem backoff_honoring {α : Type} (transport : Nat → Except ReqError α)
    (dur : Nat → Nat) (now last r : Nat) (hdr : Option String) (bd : String)
    (h0 : transport 0 = .error (.http 429 hdr bd)) :
    (handleRequest transport dur 0 now last (r + 1)).sleeps.head? =
      some ((retryAfterValue hdr * 1000).toNat) ∧
    (∀ n : Int, hdr.bind jsParseInt = some n → n ≠ 0 →
      retryAfterValue hdr = n) ∧
    (hdr.bind jsParseInt = none → retryAfterValue hdr = 1) ∧
    (hdr.bind jsParseInt = some 0 → retryAfterValue hdr = 1) := by
  refine ⟨?_, ?_, ?_, ?_⟩
  · rw [handleRequest_succ_retry transport dur 0 now last r
      (.http 429 hdr bd) h0 rfl]
    rfl
  · intro n hn hnz
    rcases hdr with _ | s
    · simp at hn
    · simp only [Option.some_bind] at hn
      simp [retryAfterValue, hn, hnz]
  · intro hn
    rcases hdr with _ | s
    · rfl
    · simp only [Option.some_bind] at hn
      simp [retryAfterValue, hn]
  · intro hn
    rcases hdr with _ | s
    · rfl
    · simp only [Option.some_bind] at hn
      simp [retryAfterValue, hn]

/-- Witness for C3 (amended): with `retry-after: 2` the first backoff
sleep is exactly 2000 ms, and `"2"` parses to the nonzero integer 2. -/
theorem backoff_honoring_witness :
    (handleRequest always429HeaderTwo (fun _ => 0) 0 0 0 (2 + 1)).sleeps.head?
        = some ((retryAfterValue (some "2") * 1000).toNat) ∧
    (∀ n : Int, (some "2").bind jsParseInt = some n → n ≠ 0 →
      retryAfterValue (some "2") = n) ∧
    ((some "2").bind jsParseInt = none → retryAfterValue (some "2") = 1) ∧
    ((some "2").bind jsParseInt = some 0 → retryAfterValue (some "2") = 1) :=
  backoff_honoring always429HeaderTwo (fun _ => 0) 0 0 2 (some "2")
    "rate limited" rfl

/-- C10: a `retry-after` header that parses to the integer 0 is treated
exactly like an absent or unparsable header: the Dispatcher waits the
default 1 second, not 0 seconds, before each retry. -/
theorem retry_after_zero_default_wait :
    retryAfterValue (some "0") = 1 ∧
    jsParseInt "0" = some 0 ∧
    retryAfterValue none = 1 ∧
    retryAfterValue (some "not-a-number") = 1 ∧
    (handleRequest always429HeaderZero (fun _ => 0) 0 0 0 2).sleeps
        = [1000, 1000] :=
  ⟨by decide, by decide, rfl, by decide, rfl⟩

/-! ### Optional-field lemmas for the body builders -/

/-- A mapped optional field is present exactly when the option is. -/
lemma exists_map_eq_isSome {β : Type} (o : Option β) (f : β → JsVal) :
    (∃ x, ∃ a, o = some a ∧ f a = x) ↔ o.isSome := by
  cases o <;> simp

/-- Membership of a pair in an optional field. -/
lemma mem_optField_iff (k j : String) (v : JsVal) (o : Option JsVal) :
    (k, v) ∈ optField j o ↔ (k = j ∧ o = some v) := by
  cases o <;> simp [optField, Prod.ext_iff, and_congr_right_iff, eq_comm]

/-- Membership of a key in the keys of an optional field. -/
lemma key_mem_optField_iff (k j : String) (o : Option JsVal) :
    k ∈ (optField j o).map Prod.fst ↔ (k = j ∧ o.isSome) := by
  cases o <;> simp [optField]

/-- C4: the chat-completion body contains a key for an optional argument
(`temperature`, `max_tokens`, `top_p`, `tools`, `tool_choice`) exactly
when the caller supplied a defined value, and a supplied value appears
verbatim as that key's value. -/
theorem chat_optional_fields (model : String) (messages : List JsVal)
    (temperature maxTokens topP : Option Rat) (tools : Option (List JsVal))
    (toolChoice : Option JsVal) :
    ("temperature" ∈ (chatCompletionBody model messages temperature maxTokens
        topP tools toolChoice).map Prod.fst ↔ temperature.isSome) ∧
    (∀ q : Rat, ("temperature", JsVal.num q) ∈ chatCompletionBody model
        messages temperature maxTokens topP tools toolChoice ↔
        temperature = some q) ∧
    ("max_tokens" ∈ (chatCompletionBody model messages temperature maxTokens
        topP tools toolChoice).map Prod.fst ↔ maxTokens.isSome) ∧
    (∀ q : Rat, ("max_tokens", JsVal.num q) ∈ chatCompletionBody model
        messages temperature maxTokens topP tools toolChoice ↔
        maxTokens = some q) ∧
    ("top_p" ∈ (chatCompletionBody model messages temperature maxTokens
        topP tools toolChoice).map Prod.fst ↔ topP.isSome) ∧
    (∀ q : Rat, ("top_p", JsVal.num q) ∈ chatCompletionBody model
        messages temperature maxTokens topP tools toolChoice ↔
        topP = some q) ∧
    ("tools" ∈ (chatCompletionBody model messages temperature maxTokens
        topP tools toolChoice).map Prod.fst ↔ tools.isSome) ∧
    (∀ l : List JsVal, ("tools", JsVal.arr l) ∈ chatCompletionBody model
        messages temperature maxTokens topP tools toolChoice ↔
        tools = some l) ∧
    ("tool_choice" ∈ (chatCompletionBody model messages temperature maxTokens
        topP tools toolChoice).map Prod.fst ↔ toolChoice.isSome) ∧
    (∀ v : JsVal, ("tool_choice", v) ∈ chatCompletionBody model
        messages temperature maxTokens topP tools toolChoice ↔
        toolChoice = some v) := by
  refine ⟨?_, ?_, ?_, ?_, ?_, ?_, ?_, ?_, ?_, ?_⟩ <;>
    simp [chatCompletionBody, List.mem_append, mem_optField_iff,
      key_mem_optField_iff, Option.map_eq_some', Option.isSome_map,
      exists_map_eq_isSome, Option.isSome_iff_exists]

/-- Witness for C4: with `temperature` undefined the body has no
`temperature` key; with `temperature = 1` the pair appears verbatim. -/
theorem chat_optional_fields_witness :
    ("temperature" ∈ (chatCompletionBody "gpt-4" [] none none none none
        none).map Prod.fst ↔ (none : Option Rat).isSome) ∧
    (("temperature", JsVal.num 1) ∈ chatCompletionBody "gpt-4" []
        (some 1) none none none none ↔ (some 1 : Option Rat) = some 1) :=
  ⟨(chat_optional_fields "gpt-4" [] none none none none none).1,
    (chat_optional_fields "gpt-4" [] (some 1) none none none none).2.1 1⟩

/-- C5 (counterexample to the claim as stated): calling the
image-generation builder with `model` undefined produces a body that DOES
contain a `model` key, with value `"dall-e-3"` — the code always sets
`model: model || "dall-e-3"`. -/
theorem image_model_key_cex :
    "model" ∈ (createImageBody "a cat" none none none none).map Prod.fst ∧
    ("model", JsVal.str "dall-e-3") ∈
      createImageBody "a cat" none none none none := by
  constructor <;> simp [createImageBody, optField, jsOrString]

/-- C5 (amended): every per-capability operation builds its body from the
required fields and adds each optional field only when the caller
supplied a defined value — except the image-generation `model` field,
which is always present: it carries the supplied value when that value is
a nonempty string and the default `"dall-e-3"` when the caller omitted it
(or supplied the empty string); image `size`, `quality`, `n`, embedding
`dimensions`, speech `response_format` and `speed`, transcription
`language` and `response_format`, and moderation `model` appear exactly
when supplied, verbatim. -/
theorem optional_field_policy
    (prompt : String) (m s q : Option String) (n : Option Rat)
    (em : String) (ei : JsVal) (ed : Option Rat)
    (sm si sv : String) (srf : Option String) (ssp : Option Rat)
    (tm tf : String) (tl trf : Option String)
    (mi : String) (mm : Option String) :
    ("model" ∈ (createImageBody prompt m s q n).map Prod.fst) ∧
    (m = none →
      ("model", JsVal.str "dall-e-3") ∈ createImageBody prompt m s q n) ∧
    (∀ v : String, m = some v → v ≠ "" →
      ("model", JsVal.str v) ∈ createImageBody prompt m s q n) ∧
    (∀ v : String, ("size", JsVal.str v) ∈ createImageBody prompt m s q n ↔
      s = some v) ∧
    (∀ v : String, ("quality", JsVal.str v) ∈ createImageBody prompt m s q n ↔
      q = some v) ∧
    (∀ x : Rat, ("n", JsVal.num x) ∈ createImageBody prompt m s q n ↔
      n = some x) ∧
    (∀ x : Rat, ("dimensions", JsVal.num x) ∈ createEmbeddingBody em ei ed ↔
      ed = some x) ∧
    (∀ v : String, ("response_format", JsVal.str v) ∈
      createSpeechBody sm si sv srf ssp ↔ srf = some v) ∧
    (∀ x : Rat, ("speed", JsVal.num x) ∈ createSpeechBody sm si sv srf ssp ↔
      ssp = some x) ∧
    (∀ v : String, ("language", JsVal.str v) ∈
      createTranscriptionBody tm tf tl trf ↔ tl = some v) ∧
    (∀ v : String, ("response_format", JsVal.str v) ∈
      createTranscriptionBody tm tf tl trf ↔ trf = some v) ∧
    (∀ v : String, ("model", JsVal.str v) ∈ moderateContentBody mi mm ↔
      mm = some v) := by
  refine ⟨?_, ?_, ?_, ?_, ?_, ?_, ?_, ?_, ?_, ?_, ?_, ?_⟩
  · simp [createImageBody, key_mem_optField_iff]
  · intro hm
    subst hm
    simp [createImageBody, mem_optField_iff, jsOrString]
  · intro v hm hv
    subst hm
    simp [createImageBody, mem_optField_iff, jsOrString, hv]
  all_goals
    simp [createImageBody, createEmbeddingBody, createSpeechBody,
      createTranscriptionBody, moderateContentBody, mem_optField_iff,
      key_mem_optField_iff, Option.map_eq_some', jsOrString]

/-- Witness for C5 (amended): an omitted image model yields the default
`"dall-e-3"` in the body; a supplied nonempty model appears verbatim. -/
theorem optional_field_policy_witness :
    ("model", JsVal.str "dall-e-3") ∈
      createImageBody "a dog" none none none none ∧
    ("model", JsVal.str "gpt-image-1") ∈
      createImageBody "a dog" (some "gpt-image-1") none none none :=
  ⟨(optional_field_policy "a dog" none none none none "m" (JsVal.str "x")
      none "m" "i" "v" none none "m" "f" none none "i" none).2.1 rfl,
    (optional_field_policy "a dog" (some "gpt-image-1") none none none "m"
      (JsVal.str "x") none "m" "i" "v" none none "m" "f" none none "i"
      none).2.2.1 "gpt-image-1" rfl (by decide)⟩

/-- C8: constructing the client with no explicit credential and no
environment credential fails with the configuration error; a nonempty
credential from either source makes construction succeed with that
credential. -/
theorem constructor_credential_check :
    openAIClientInit none none =
      .error "OPENAI_API_KEY environment variable is required" ∧
    (∀ s : String, s ≠ "" →
      ∀ envKey : Option String, openAIClientInit (some s) envKey = .ok s) ∧
    (∀ e : String, e ≠ "" → openAIClientInit none (some e) = .ok e) := by
  refine ⟨rfl, ?_, ?_⟩
  · intro s hs envKey
    simp [openAIClientInit, hs]
  · intro e he
    simp [openAIClientInit, he]

/-- Witness for C8: an explicit key and an environment key each make
construction succeed. -/
theorem constructor_credential_check_witness :
    ("sk-test" : String) ≠ "" ∧
    openAIClientInit (some "sk-test") none = .ok "sk-test" ∧
    openAIClientInit none (some "env-key") = .ok "env-key" :=
  ⟨by decide,
    constructor_credential_check.2.1 "sk-test" (by decide) none,
    constructor_credential_check.2.2 "env-key" (by decide)⟩

/-- C9: the transcription operation sends an ordinary JSON POST (no
multipart upload) to `/audio/transcriptions`, whose `file` field is the
caller-supplied file URL string, with `model` and exactly the supplied
optional fields. -/
theorem transcription_request_shape (model fileUrl : String)
    (language responseFormat : Option String) :
    (createTranscriptionRequest model fileUrl language responseFormat).path
        = "/audio/transcriptions" ∧
    (createTranscriptionRequest model fileUrl language responseFormat).method
        = "POST" ∧
    (createTranscriptionRequest model fileUrl language
        responseFormat).contentType = "application/json" ∧
    (createTranscriptionRequest model fileUrl language
        responseFormat).responseMode = ResponseMode.json ∧
    ("file", JsVal.str fileUrl) ∈
      (createTranscriptionRequest model fileUrl language responseFormat).body ∧
    ("model", JsVal.str model) ∈
      (createTranscriptionRequest model fileUrl language responseFormat).body ∧
    (∀ v : String, ("language", JsVal.str v) ∈
      (createTranscriptionRequest model fileUrl language responseFormat).body
      ↔ language = some v) ∧
    (∀ v : String, ("response_format", JsVal.str v) ∈
      (createTranscriptionRequest model fileUrl language responseFormat).body
      ↔ responseFormat = some v) := by
  refine ⟨rfl, rfl, rfl, rfl, ?_, ?_, ?_, ?_⟩ <;>
    simp [createTranscriptionRequest, createTranscriptionBody,
      mem_optField_iff, Option.map_eq_some']

/-! ### Base64 round trip -/

/-- Decoding inverts the alphabet on every sextet. -/
lemma b64idx_b64c : ∀ n : Nat, n < 64 → b64idx (b64c n) = some n := by
  decide

/-- No alphabet character is the padding character. -/
lemma b64c_ne_pad : ∀ n : Nat, n < 64 → b64c n ≠ '=' := by
  decide

/-- Base64 decoding inverts encoding on any byte list. -/
theorem base64_decode_encode :
    ∀ (bs : List Nat), (∀ x ∈ bs, x < 256) →
      base64DecodeList (base64EncodeList bs) = bs
  | [], _ => rfl
  | [a], h => by
      have ha : a < 256 := h a (by simp)
      simp only [base64EncodeList, base64DecodeList]
      rw [b64idx_b64c (a / 4) (by omega), b64idx_b64c (a % 4 * 16) (by omega)]
      simp
      omega
  | [a, b], h => by
      have ha : a < 256 := h a (by simp)
      have hb : b < 256 := h b (by simp)
      simp only [base64EncodeList, base64DecodeList]
      rw [b64idx_b64c (a / 4) (by omega),
        b64idx_b64c (a % 4 * 16 + b / 16) (by omega)]
      simp [b64idx_b64c (b % 16 * 4) (by omega),
        b64c_ne_pad (b % 16 * 4) (by omega)]
      omega
  | a :: b :: c :: rest, h => by
      have ha : a < 256 := h a (by simp)
      have hb : b < 256 := h b (by simp)
      have hc : c < 256 := h c (by simp)
      have ih := base64_decode_encode rest (fun x hx => h x (by simp [hx]))
      simp only [base64EncodeList, base64DecodeList]
      rw [b64idx_b64c (a / 4) (by omega),
        b64idx_b64c (a % 4 * 16 + b / 16) (by omega)]
      simp [b64idx_b64c (b % 16 * 4 + c / 64) (by omega),
        b64c_ne_pad (b % 16 * 4 + c / 64) (by omega),
        b64idx_b64c (c % 64) (by omega),
        b64c_ne_pad (c % 64) (by omega), ih]
      omega

/-- C6: for every byte sequence the transport returns, the
speech-synthesis result's `audio_base64` string decodes from base64 back
to exactly those bytes. -/
theorem speech_base64_roundtrip (bytes : List Nat)
    (h : ∀ b ∈ bytes, b < 256) :
    base64Decode (createSpeechResult bytes).audio_base64 = bytes :=
  base64_decode_encode bytes h

/-- Witness for C6: the bytes `[0x01, 0x02, 0x03]` round-trip through the
speech result's base64 encoding. -/
theorem speech_base64_roundtrip_witness :
    (∀ b ∈ [1, 2, 3], b < 256) ∧
    base64Decode (createSpeechResult [1, 2, 3]).audio_base64 = [1, 2, 3] :=
  ⟨by decide, speech_base64_roundtrip [1, 2, 3] (by decide)⟩
